import Mathlib

/-!
Shallow embedding, in Lean 4, of the numeric core of the
`onlinecalculatorpro-astro/astrology-app` repository:

* `src/astro_calc.py` (`AstrologyCalculator`),
* `src/engines/base_engine.py` (`EnhancedBaseEngine`),
* `src/professional_astro.py` (houses and aspect detection),
* `src/engines/rectification/birth_time_rectifier.py` (`BirthTimeRectifier`).

Modelling conventions:

* Python floats are modelled by exact rationals `ℚ`; Python's binary `%`
  with a positive right operand is `pmod` below (`x - m * ⌊x / m⌋`).
* Calls to `math.sin`/`math.cos`/`math.degrees` are abstracted by oracle
  parameters `S C D : ℚ → ℚ`: `S x` stands for `sin(radians x)` with `x` in
  degrees, `C x` for `cos(radians x)`, and `D r` for `math.degrees r`.
  Every theorem proved here holds for all oracles, so it holds in
  particular for the real trigonometric functions.
* Python `datetime` values are structured records (`PyDateTime`); the
  candidate grid of the rectifier is modelled on the rational timeline
  measured in minutes (Python `datetime + timedelta` arithmetic is exact
  arithmetic on that timeline).
* Python dictionaries appear as association lists in insertion order;
  a lookup that Python would answer with `KeyError` is `Option.none`, and
  functions whose Python counterpart can raise return `Option`.
* Python `while` loops are modelled by fuel recursion, with the fuel
  computed from the inputs so that (as proved below) it never runs out on
  the inputs the program reaches.
-/

/-- Python's `x % m` for rationals with `m > 0`: `x - m * ⌊x / m⌋`. -/
def pmod (x m : ℚ) : ℚ := x - m * ⌊x / m⌋

theorem pmod_eq_fract (x m : ℚ) (hm : m ≠ 0) :
    pmod x m = m * Int.fract (x / m) := by
  unfold pmod Int.fract
  have h : m * (x / m) = x := by field_simp
  rw [mul_sub, h]

theorem pmod_nonneg (x m : ℚ) (hm : 0 < m) : 0 ≤ pmod x m := by
  rw [pmod_eq_fract x m hm.ne.symm]
  exact mul_nonneg hm.le (Int.fract_nonneg _)

theorem pmod_lt (x m : ℚ) (hm : 0 < m) : pmod x m < m := by
  rw [pmod_eq_fract x m hm.ne.symm]
  calc m * Int.fract (x / m) < m * 1 :=
        (mul_lt_mul_left hm).mpr (Int.fract_lt_one _)
    _ = m := mul_one m

theorem pmod_mem_Ico (x m : ℚ) (hm : 0 < m) : pmod x m ∈ Set.Ico 0 m :=
  ⟨pmod_nonneg x m hm, pmod_lt x m hm⟩

/-- Adding an integer multiple of the modulus does not change `pmod`. -/
theorem pmod_add_int_mul (x m : ℚ) (k : ℤ) (hm : m ≠ 0) :
    pmod (x + m * k) m = pmod x m := by
  rw [pmod_eq_fract _ _ hm, pmod_eq_fract _ _ hm]
  have h : (x + m * k) / m = x / m + k := by field_simp; ring
  rw [h, Int.fract_add_int]

theorem pmod_sub_int_mul (x m : ℚ) (k : ℤ) (hm : m ≠ 0) :
    pmod (x - m * k) m = pmod x m := by
  have := pmod_add_int_mul x m (-k) hm
  simpa [sub_eq_add_neg] using this

/-- Lemma: `pmod` of an integer multiple of the modulus is zero. -/
theorem pmod_int_mul_self (m : ℚ) (k : ℤ) (hm : m ≠ 0) :
    pmod (m * k) m = 0 := by
  have h0 : pmod (0 + m * k) m = pmod 0 m := pmod_add_int_mul 0 m k hm
  simp only [zero_add] at h0
  rw [h0]
  simp [pmod]

/-- Lemma: `pmod x m` differs from `x` by the integer multiple `⌊x/m⌋` of `m`. -/
theorem pmod_spec (x m : ℚ) : pmod x m = x - m * ⌊x / m⌋ := rfl

/-- Python association-list lookup (`dict[key]` / `key in dict`),
    insertion order preserved. -/
def alookup {α : Type} (l : List (String × α)) (k : String) : Option α :=
  match l with
  | [] => none
  | (k', v) :: rest => if k = k' then some v else alookup rest k

/-- Python list indexing `l[i]` for a nonnegative index (raises = `none`). -/
def pyGet {α : Type} (l : List α) (i : ℕ) : Option α := l.get? i

/-! ### `datetime` values and Julian-Day conversion

`EnhancedBaseEngine.precise_julian_day` (src/engines/base_engine.py,
lines 37–53) and `AstrologyCalculator.julian_day` (src/astro_calc.py,
lines 53–63).  A `PyDateTime` is already normalised to UTC (the Python
code's `astimezone` step); Python's `//` on nonnegative ints is `Int.fdiv`
in general, written with `Int.fdiv` below for faithfulness. -/

structure PyDateTime where
  year : ℤ
  month : ℤ
  day : ℤ
  hour : ℤ
  minute : ℤ
  second : ℤ
  microsecond : ℤ
deriving DecidableEq, Repr

/-- The shared Gregorian Julian-Day-Number kernel of both converters. -/
def gregorianJDN (year month day : ℤ) : ℤ :=
  let a := Int.fdiv (14 - month) 12
  let y := year + 4800 - a
  let m := month + 12 * a - 3
  day + Int.fdiv (153 * m + 2) 5 + 365 * y + Int.fdiv y 4 - Int.fdiv y 100
    + Int.fdiv y 400 - 32045

/-- Embeds `EnhancedBaseEngine.precise_julian_day` on a UTC datetime. -/
def precise_julian_day (dt : PyDateTime) : ℚ :=
  let jdn : ℤ := gregorianJDN dt.year dt.month dt.day
  let time_fraction : ℚ :=
    ((dt.hour : ℚ) + (dt.minute : ℚ) / 60 + (dt.second : ℚ) / 3600
      + (dt.microsecond : ℚ) / 3600000000) / 24
  (jdn : ℚ) + time_fraction - 1/2

/-- Embeds `AstrologyCalculator.julian_day` (no microsecond term). -/
def julian_day (dt : PyDateTime) : ℚ :=
  let jdn : ℤ := gregorianJDN dt.year dt.month dt.day
  let time_fraction : ℚ :=
    ((dt.hour : ℚ) + (dt.minute : ℚ) / 60 + (dt.second : ℚ) / 3600) / 24
  (jdn : ℚ) + time_fraction - 1/2

/-! ### Ayanamsa (src/engines/base_engine.py, lines 107–126) -/

/-- The `ayanamsa_values` dictionary of `calculate_ayanamsa`: for each
    named system its base offset at J2000 and its per-year precession
    rate (the source writes the value inline as
    `base + (50.290966 / 3600) * years_since_2000`). -/
def ayanamsa_values : List (String × (ℚ × ℚ)) :=
  [ ("LAHIRI", (23.85208333, 50.290966 / 3600)),
    ("RAMAN",  (21.94613889, 50.290966 / 3600)),
    ("KP",     (23.85208333, 50.290966 / 3600)) ]

/-- Embeds `EnhancedBaseEngine.calculate_ayanamsa`: unknown system names fall
    back to the LAHIRI entry (`dict.get(system, values['LAHIRI'])`). -/
def calculate_ayanamsa (jd : ℚ) (system : String) : ℚ :=
  let years_since_2000 : ℚ := (jd - 2451545) / 365.25
  let (base, rate) := (alookup ayanamsa_values system).getD (23.85208333, 50.290966 / 3600)
  base + rate * years_since_2000

/-- Embeds `EnhancedBaseEngine.tropical_to_sidereal`. -/
def tropical_to_sidereal (tropical_longitude : ℚ) (jd : ℚ)
    (ayanamsa_system : String) : ℚ :=
  let ayanamsa := calculate_ayanamsa jd ayanamsa_system
  pmod (tropical_longitude - ayanamsa) 360

/-! ### Sun, Moon and planetary longitudes
(src/engines/base_engine.py, lines 55–182).  `S x` abstracts
`math.sin(math.radians(x))` for `x` in degrees; `D r` abstracts
`math.degrees(r)`. -/

/-- Embeds `EnhancedBaseEngine.enhanced_sun_longitude`. -/
def enhanced_sun_longitude (S : ℚ → ℚ) (jd : ℚ) : ℚ :=
  let T := (jd - 2451545) / 36525
  let L0 := 280.46646 + 36000.76983 * T + 0.0003032 * T^2
  let M := 357.52911 + 35999.05029 * T - 0.0001537 * T^2
  let C := (1.914602 - 0.004817 * T - 0.000014 * T^2) * S M
    + (0.019993 - 0.000101 * T) * S (2 * M)
    + 0.000289 * S (3 * M)
  pmod (L0 + C) 360

/-- Embeds `EnhancedBaseEngine.enhanced_moon_longitude`.  The source also
computes the unused `F` (argument of latitude); it does not affect the
result and is omitted. -/
def enhanced_moon_longitude (S : ℚ → ℚ) (jd : ℚ) : ℚ :=
  let T := (jd - 2451545) / 36525
  let L := 218.3164477 + 481267.88123421 * T - 0.0015786 * T^2
  let M := 134.9633964 + 477198.8675055 * T + 0.0087414 * T^2
  let M_sun := 357.5291092 + 35999.0502909 * T - 0.0001536 * T^2
  let longitude := L + 6.288774 * S M
    + 1.274027 * S (2 * (L - M_sun) - M)
    + 0.658314 * S (2 * (L - M_sun))
    + 0.213618 * S (2 * M)
  pmod longitude 360

/-- Embeds `EnhancedBaseEngine._calculate_planet_longitude`: first/second-order
equation of centre; `sin(M_rad) = S (M % 360)`, `sin(2*M_rad) = S (2*(M % 360))`,
and `math.degrees` is the oracle `D`. -/
def _calculate_planet_longitude (S D : ℚ → ℚ)
    (mean_longitude mean_anomaly eccentricity : ℚ) : ℚ :=
  let Mr := pmod mean_anomaly 360
  let C := 2 * eccentricity * S Mr + 1.25 * eccentricity^2 * S (2 * Mr)
  mean_longitude + D C

/-- Embeds `EnhancedBaseEngine.enhanced_planetary_positions`: the `planets`
dictionary in insertion order. -/
def enhanced_planetary_positions (S D : ℚ → ℚ) (jd : ℚ) : List (String × ℚ) :=
  let T := (jd - 2451545) / 36525
  let mercury_L := 252.250906 + 149474.0722491 * T + 0.00030397 * T^2
  let mercury_e := 0.20563175 + 0.000020406 * T - 0.0000000284 * T^2
  let mercury_M := 174.7948 + 149472.51529 * T + 0.00008444 * T^2
  let venus_L := 181.979801 + 58519.2130302 * T + 0.00031014 * T^2
  let venus_M := 50.4161 + 58517.81539 * T + 0.00008567 * T^2
  let venus_e := 0.00677188 - 0.000047766 * T + 0.0000000975 * T^2
  let mars_L := 355.433275 + 19141.6964746 * T + 0.00031097 * T^2
  let mars_M := 19.3730 + 19139.85475 * T + 0.00000181 * T^2
  let mars_e := 0.09340062 + 0.000090483 * T - 0.0000000806 * T^2
  let jupiter_L := 34.351484 + 3036.3027748 * T + 0.00022330 * T^2
  let jupiter_M := 20.0202 + 3034.90567 * T - 0.00000023 * T^2
  let jupiter_e := 0.04849485 + 0.000163244 * T - 0.0000004719 * T^2
  let saturn_L := 50.077471 + 1223.5110686 * T + 0.00051952 * T^2
  let saturn_M := 317.0207 + 1222.11494 * T + 0.00000611 * T^2
  let saturn_e := 0.05554814 - 0.000346641 * T - 0.0000006436 * T^2
  [ ("mercury", pmod (_calculate_planet_longitude S D mercury_L mercury_M mercury_e) 360),
    ("venus",   pmod (_calculate_planet_longitude S D venus_L venus_M venus_e) 360),
    ("mars",    pmod (_calculate_planet_longitude S D mars_L mars_M mars_e) 360),
    ("jupiter", pmod (_calculate_planet_longitude S D jupiter_L jupiter_M jupiter_e) 360),
    ("saturn",  pmod (_calculate_planet_longitude S D saturn_L saturn_M saturn_e) 360) ]

/-! ### House cusps (src/professional_astro.py, lines 672–714)

Embedded on the branch where the caller supplies `jd` (the source only
recomputes `jd` from the datetime when it is not passed).  `S x` abstracts
`math.sin(math.radians(x))` and `C x` abstracts `math.cos(math.radians(x))`. -/

def ZODIAC_SIGNS : List String :=
  [ "Aries", "Taurus", "Gemini", "Cancer", "Leo", "Virgo",
    "Libra", "Scorpio", "Sagittarius", "Capricorn", "Aquarius", "Pisces" ]

structure House where
  house : ℕ
  longitude : ℚ
  sign : String
  degrees : ℚ
  formatted : String
deriving DecidableEq, Repr

/-- Embeds `ProfessionalAstrologyEngine._calculate_enhanced_houses`.  Python's
`int(x // 30)` on the nonnegative cusp values is `⌊x / 30⌋`; Python's `%`
on ints with positive modulus is Lean's `Int.emod`.  The `formatted`
field abstracts Python's `{:.1f}` float formatting as `toString`. -/
def _calculate_enhanced_houses (S C : ℚ → ℚ) (jd latitude longitude : ℚ)
    (system : String) (ayanamsa_value : Option ℚ) : List House :=
  let T := (jd - 2451545) / 36525
  let theta0 := 280.46061837 + 360.98564736629 * (jd - 2451545)
    + 0.000387933 * T^2 - T^3 / 38710000
  let lst_degrees := pmod (theta0 + longitude) 360
  (List.range 12).map (fun (i : ℕ) =>
    let house_longitude : ℚ :=
      if system = "equal" then pmod (lst_degrees + (i : ℚ) * 30) 360
      else if system = "whole" then
        let ascendant_sign : ℤ := ⌊lst_degrees / 30⌋
        ((((ascendant_sign + (i : ℤ)) % 12) * 30 : ℤ) : ℚ)
      else
        let base_longitude := pmod ((i : ℚ) * 30 + lst_degrees) 360
        let lat_correction := S latitude * 3 * C base_longitude
        pmod (base_longitude + lat_correction) 360
    let house_longitude : ℚ :=
      match ayanamsa_value with
      | some a => pmod (house_longitude - a) 360
      | none => house_longitude
    let sign_index : ℤ := ⌊house_longitude / 30⌋
    let sign := (ZODIAC_SIGNS.get? sign_index.toNat).getD ""
    let sign_degrees := pmod house_longitude 30
    { house := i + 1, longitude := house_longitude, sign := sign,
      degrees := sign_degrees,
      formatted := "House " ++ toString (i + 1) ++ ": "
        ++ toString sign_degrees ++ " " ++ sign })

/-! ### Aspect detection (src/professional_astro.py, lines 716–816) -/

/-- One entry of the `planetary_data` dictionary: the `name` value and the
optional `longitude` value (the source skips pairs whose dict lacks a
`'longitude'` key). -/
structure PlanetData where
  name : String
  longitude : Option ℚ
deriving DecidableEq, Repr

/-- All ordered pairs produced by
`for i, p1 in enumerate(list): for p2 in list[i+1:]`. -/
def pythonPairs {α : Type} : List α → List (α × α)
  | [] => []
  | x :: xs => (xs.map fun y => (x, y)) ++ pythonPairs xs

/-- Embeds `ProfessionalAstrologyEngine._get_aspect_meaning` (f-strings embedded
as concatenation). -/
def _get_aspect_meaning (p1_name p2_name aspect : String) : String :=
  if aspect = "conjunction" then
    p1_name ++ " and " ++ p2_name ++ " work together harmoniously, blending their energies for unified expression"
  else if aspect = "opposition" then
    p1_name ++ " and " ++ p2_name ++ " create dynamic tension that requires balance and integration"
  else if aspect = "trine" then
    p1_name ++ " and " ++ p2_name ++ " flow together naturally, creating easy expression and natural talent"
  else if aspect = "square" then
    p1_name ++ " and " ++ p2_name ++ " create productive tension that motivates growth and achievement"
  else if aspect = "sextile" then
    p1_name ++ " and " ++ p2_name ++ " support each other, creating opportunities for positive development"
  else
    p1_name ++ " " ++ aspect ++ " " ++ p2_name ++ " creates meaningful interaction between these planetary energies"

/-- The `major_aspects` table of `_calculate_precise_aspects`
(name, exact angle, orb), in dict insertion order. -/
def major_aspects_precise : List (String × ℚ × ℚ) :=
  [ ("conjunction", (0, 6)), ("opposition", (180, 6)), ("trine", (120, 5)),
    ("square", (90, 5)), ("sextile", (60, 3)) ]

/-- The `major_aspects` table of `_calculate_aspects` (standard orbs). -/
def major_aspects_standard : List (String × ℚ × ℚ) :=
  [ ("conjunction", (0, 8)), ("opposition", (180, 8)), ("trine", (120, 6)),
    ("square", (90, 6)), ("sextile", (60, 4)) ]

structure AspectPrecise where
  planet1 : String
  planet2 : String
  aspect : String
  orb : ℚ
  strength : String
  description : String
  precision : String
deriving DecidableEq, Repr

structure AspectStandard where
  planet1 : String
  planet2 : String
  aspect : String
  orb : ℚ
  description : String
  precision : String
deriving DecidableEq, Repr

/-- Embeds `ProfessionalAstrologyEngine._calculate_precise_aspects`.
`precision_mode` is the engine attribute read on line 758. -/
def _calculate_precise_aspects (precision_mode : String)
    (planetary_data : List (String × PlanetData)) : List AspectPrecise :=
  (pythonPairs planetary_data).flatMap (fun pq =>
    match pq.1.2.longitude, pq.2.2.longitude with
    | some p1_lon, some p2_lon =>
      let separation0 := |p1_lon - p2_lon|
      let separation := if separation0 > 180 then 360 - separation0 else separation0
      major_aspects_precise.filterMap (fun nao =>
        let orb_difference := |separation - nao.2.1|
        if orb_difference ≤ nao.2.2 then
          let strength := if orb_difference < 1 then "exact"
            else if orb_difference < 3 then "close" else "wide"
          some { planet1 := pq.1.2.name, planet2 := pq.2.2.name,
                 aspect := nao.1, orb := orb_difference, strength := strength,
                 description := _get_aspect_meaning pq.1.2.name pq.2.2.name nao.1,
                 precision := if precision_mode = "ENHANCED" then "enhanced" else "standard" }
        else none)
    | _, _ => [])

/-- Embeds `ProfessionalAstrologyEngine._calculate_aspects` (standard fallback). -/
def _calculate_aspects (planetary_data : List (String × PlanetData)) :
    List AspectStandard :=
  (pythonPairs planetary_data).flatMap (fun pq =>
    match pq.1.2.longitude, pq.2.2.longitude with
    | some p1_lon, some p2_lon =>
      let separation0 := |p1_lon - p2_lon|
      let separation := if separation0 > 180 then 360 - separation0 else separation0
      major_aspects_standard.filterMap (fun nao =>
        if |separation - nao.2.1| ≤ nao.2.2 then
          some { planet1 := pq.1.2.name, planet2 := pq.2.2.name,
                 aspect := nao.1, orb := |separation - nao.2.1|,
                 description := _get_aspect_meaning pq.1.2.name pq.2.2.name nao.1,
                 precision := "standard" }
        else none)
    | _, _ => [])

/-! ### Birth-time rectification
(src/engines/rectification/birth_time_rectifier.py)

Python `datetime` instants are modelled as rational numbers of minutes on
the Julian-day timeline (`instant = JD · 1440`); `timedelta(minutes=2)`
is `+ 2` and `precise_julian_day` of an instant `t` is `t / 1440`, which
is exactly the value the Gregorian formula assigns to the shifted civil
timestamp. -/

/-- The `event_correlations` dict, insertion order. -/
def event_correlations : List (String × List String) :=
  [ ("marriage", ["venus", "jupiter", "moon"]),
    ("career", ["sun", "jupiter", "saturn", "mercury"]),
    ("education", ["jupiter", "mercury", "sun"]),
    ("health", ["sun", "moon", "mars"]),
    ("travel", ["jupiter", "mercury", "moon"]),
    ("property", ["mars", "saturn", "moon"]),
    ("children", ["jupiter", "sun"]),
    ("death_family", ["saturn", "mars"]),
    ("accident", ["mars", "saturn"]),
    ("spiritual", ["jupiter", "moon"]) ]

/-- The `dasha_periods` dict (Vimshottari), insertion order. -/
def dasha_periods : List (String × ℚ) :=
  [ ("sun", 6), ("moon", 10), ("mars", 7), ("rahu", 18), ("jupiter", 16),
    ("saturn", 19), ("mercury", 17), ("ketu", 7), ("venus", 20) ]

/-- Embeds `list(self.dasha_periods.keys())`. -/
def dasha_lords : List String := dasha_periods.map Prod.fst

/-- The `nakshatra_lords` list (27 entries). -/
def nakshatra_lords : List String :=
  [ "ketu", "venus", "sun", "moon", "mars", "rahu", "jupiter",
    "saturn", "mercury", "ketu", "venus", "sun", "moon", "mars",
    "rahu", "jupiter", "saturn", "mercury", "ketu", "venus",
    "sun", "moon", "mars", "rahu", "jupiter", "saturn", "mercury" ]

/-- Python list indexing `l[i]` including negative-index wraparound;
`none` models `IndexError`. -/
def pyIdx {α : Type} (l : List α) (i : ℤ) : Option α :=
  if 0 ≤ i then l.get? i.toNat
  else if (-i).toNat ≤ l.length then l.get? (l.length - (-i).toNat)
  else none

/-- A life-event dict: `none` fields model absent keys. -/
structure Event where
  date : Option (ℤ × ℤ × ℤ)
  etype : Option String
  importance : Option ℚ
deriving DecidableEq, Repr

/-- The `birth_data` dict consumed by `rectify_birth_time` (the date
already parsed; `approximate_time` defaults to 12:00 via `.get`). -/
structure BirthData where
  date : ℤ × ℤ × ℤ
  approximate_time : Option (ℤ × ℤ)
  latitude : ℚ
  longitude : ℚ
  personality : List (String × Bool)
deriving DecidableEq, Repr

/-- The reduced chart dict built by `_calculate_candidate_chart`. -/
structure Chart where
  julian_day : ℚ
  ayanamsa : ℚ
  planets_sidereal : List (String × ℚ)
  moon_longitude : ℚ
  ascendant : ℚ
deriving DecidableEq, Repr

/-- The `scores` dict (keys in insertion order: dasha_events,
transit_timing, ascendant_traits, house_events). -/
structure Scores where
  dasha_events : ℚ
  transit_timing : ℚ
  ascendant_traits : ℚ
  house_events : ℚ
deriving DecidableEq, Repr

/-- One element of `scored_candidates`. -/
structure Candidate where
  time : ℚ
  julian_day : ℚ
  chart : Chart
  scores : Scores
  composite_score : ℚ
  confidence : String
deriving DecidableEq, Repr

/-- The dict returned by `rectify_birth_time` (either shape; fields that
only one shape populates are `Option`/defaulted). -/
structure RectificationResult where
  success : Bool
  error : Option String
  recommendation : Option String
  rectified_time : Option ℚ
  confidence : Option String
  confidence_score : Option ℚ
  method_scores : Option Scores
  alternatives : List Candidate
  total_candidates_tested : ℕ
  recommendations : List String
deriving Repr

/-- The `while current_time <= end_time` loop of
`_generate_time_candidates`, by fuel (the caller passes enough fuel, as
proved below). -/
def candidatesLoop : ℕ → ℚ → ℚ → List ℚ
  | 0, _, _ => []
  | fuel + 1, current_time, end_time =>
    if current_time ≤ end_time then
      current_time :: candidatesLoop fuel (current_time + 2) end_time
    else []

/-- Embeds `BirthTimeRectifier._generate_time_candidates` (instants in minutes;
`timedelta(hours=window_hours/2)` is `30 · window_hours` minutes). -/
def _generate_time_candidates (approx_time : ℚ) (window_hours : ℕ) : List ℚ :=
  let start_time := approx_time - 30 * (window_hours : ℚ)
  let end_time := approx_time + 30 * (window_hours : ℚ)
  candidatesLoop (30 * window_hours + 2) start_time end_time

/-- Embeds `BirthTimeRectifier._calculate_local_sidereal_time` (no cubic term,
unlike the professional-engine variant). -/
def _calculate_local_sidereal_time (jd longitude : ℚ) : ℚ :=
  let T := (jd - 2451545) / 36525
  let theta0 := 280.46061837 + 360.98564736629 * (jd - 2451545) + 0.000387933 * T^2
  pmod (theta0 + longitude) 360

/-- Embeds `BirthTimeRectifier._calculate_candidate_chart`.  The
`planets_tropical` dict receives `sun` and `moon` after the five planets;
the `moon_longitude` field is the last value the `for planet, ...` loop
writes (initialised to 0). -/
def _calculate_candidate_chart (S D : ℚ → ℚ) (jd latitude longitude : ℚ) :
    Chart :=
  let sun_tropical := enhanced_sun_longitude S jd
  let moon_tropical := enhanced_moon_longitude S jd
  let planets_tropical := enhanced_planetary_positions S D jd
    ++ [("sun", sun_tropical), ("moon", moon_tropical)]
  let ayanamsa_value := calculate_ayanamsa jd "LAHIRI"
  let planets_sidereal := planets_tropical.map
    (fun p => (p.1, tropical_to_sidereal p.2 jd "LAHIRI"))
  let moon_longitude := planets_sidereal.foldl
    (fun acc p => if p.1 = "moon" then p.2 else acc) 0
  let lst := _calculate_local_sidereal_time jd longitude
  { julian_day := jd, ayanamsa := ayanamsa_value,
    planets_sidereal := planets_sidereal, moon_longitude := moon_longitude,
    ascendant := pmod (lst + latitude / 4) 360 }

/-- The `while current_elapsed < elapsed_years` loop of
`_calculate_running_dasha`, by fuel; `none` models both fuel exhaustion
(never reached, as proved below) and Python `KeyError`/`IndexError`. -/
def dashaLoop : ℕ → ℚ → ℕ → ℚ → Option String
  | fuel, current_elapsed, current_index, elapsed_years =>
    if current_elapsed < elapsed_years then
      match fuel with
      | 0 => none
      | fuel + 1 =>
        match dasha_lords.get? current_index with
        | none => none
        | some current_lord =>
          match alookup dasha_periods current_lord with
          | none => none
          | some period =>
            if current_elapsed + period > elapsed_years then some current_lord
            else dashaLoop fuel (current_elapsed + period)
              ((current_index + 1) % dasha_lords.length) elapsed_years
    else dasha_lords.get? current_index

/-- Embeds `BirthTimeRectifier._calculate_running_dasha`.  Python's
`int(moon_longitude // (360/27))` is `⌊moon / (360/27)⌋` (floor division
already yields an integer-valued float).  The fuel bound
`⌈years/6⌉ + 1` suffices because every dasha period is at least 6 years. -/
def _calculate_running_dasha (moon_longitude years_since_birth : ℚ) :
    Option String :=
  let nak_width : ℚ := 360 / 27
  let nakshatra_number : ℤ := ⌊moon_longitude / nak_width⌋
  let nakshatra_position := pmod moon_longitude nak_width / nak_width
  match pyIdx nakshatra_lords nakshatra_number with
  | none => none
  | some birth_dasha_lord =>
    match alookup dasha_periods birth_dasha_lord with
    | none => none
    | some birth_dasha_period =>
      let remaining_birth_dasha := birth_dasha_period * (1 - nakshatra_position)
      if years_since_birth ≤ remaining_birth_dasha then some birth_dasha_lord
      else
        let elapsed_years := years_since_birth - remaining_birth_dasha
        let birth_lord_index := dasha_lords.indexOf birth_dasha_lord
        dashaLoop ((⌈years_since_birth / 6⌉).toNat + 1) 0
          ((birth_lord_index + 1) % dasha_lords.length) elapsed_years

/-- The per-event accumulation loop of `_score_dasha_events`
(total score, event count); events lacking `date` or `type` are skipped. -/
def scoreDashaLoop (chart : Chart) : List Event → ℚ → ℕ → Option (ℚ × ℕ)
  | [], total_score, event_count => some (total_score, event_count)
  | event :: rest, total_score, event_count =>
    match event.date, event.etype with
    | some (y, m, d), some ty =>
      let event_jd := precise_julian_day ⟨y, m, d, 0, 0, 0, 0⟩
      let years_since_birth := (event_jd - chart.julian_day) / 365.25
      match _calculate_running_dasha chart.moon_longitude years_since_birth with
      | none => none
      | some running_dasha =>
        let event_type := ty.toLower
        let inc : ℚ :=
          match alookup event_correlations event_type with
          | some expected_planets =>
            if running_dasha ∈ expected_planets then
              0.8 + (event.importance.getD 0.7) * 0.2
            else 0.3
          | none => 0.5
        scoreDashaLoop chart rest (total_score + inc) (event_count + 1)
    | _, _ => scoreDashaLoop chart rest total_score event_count

/-- Embeds `BirthTimeRectifier._score_dasha_events`. -/
def _score_dasha_events (chart : Chart) (life_events : List Event) : Option ℚ :=
  if life_events = [] then some 0.5
  else
    match scoreDashaLoop chart life_events 0 0 with
    | none => none
    | some (total_score, event_count) =>
      some (if 0 < event_count then total_score / event_count else 0.5)

/-- Embeds `BirthTimeRectifier._is_major_aspect`. -/
def _is_major_aspect (pos1 pos2 orb : ℚ) : Bool :=
  let separation0 := |pos1 - pos2|
  let separation := if separation0 > 180 then 360 - separation0 else separation0
  [(0 : ℚ), 60, 90, 120, 180].any (fun aspect_angle =>
    decide (|separation - aspect_angle| ≤ orb))

/-- The per-event loop of `_score_transit_timing`.  An event with a
`date` but no `type` key makes Python raise (`event['type']`), hence
`none`; so does a natal lookup on a chart missing `sun`/`moon`. -/
def scoreTransitLoop (S D : ℚ → ℚ) (chart : Chart) :
    List Event → ℚ → ℕ → Option (ℚ × ℕ)
  | [], total_score, event_count => some (total_score, event_count)
  | event :: rest, total_score, event_count =>
    match event.date with
    | none => scoreTransitLoop S D chart rest total_score event_count
    | some (y, m, d) =>
      let event_jd := precise_julian_day ⟨y, m, d, 0, 0, 0, 0⟩
      match alookup (enhanced_planetary_positions S D event_jd) "jupiter",
            alookup (enhanced_planetary_positions S D event_jd) "saturn",
            event.etype with
      | some transit_jupiter, some transit_saturn, some ty =>
        let ayanamsa := calculate_ayanamsa event_jd "LAHIRI"
        let transit_jupiter_sidereal := pmod (transit_jupiter - ayanamsa) 360
        let transit_saturn_sidereal := pmod (transit_saturn - ayanamsa) 360
        let tyl := ty.toLower
        let jup_part : Option ℚ :=
          if tyl ∈ ["marriage", "career", "education", "children"] then
            match alookup chart.planets_sidereal "sun",
                  alookup chart.planets_sidereal "moon" with
            | some natal_sun, some natal_moon =>
              some ([natal_sun, natal_moon, chart.ascendant].foldl
                (fun acc natal_point =>
                  if _is_major_aspect transit_jupiter_sidereal natal_point 2
                  then acc + 0.3 else acc) 0)
            | _, _ => none
          else some 0
        let sat_part : Option ℚ :=
          if tyl ∈ ["career", "health", "death_family", "property"] then
            match alookup chart.planets_sidereal "sun",
                  alookup chart.planets_sidereal "moon" with
            | some natal_sun, some natal_moon =>
              some ([natal_sun, natal_moon].foldl
                (fun acc natal_point =>
                  if _is_major_aspect transit_saturn_sidereal natal_point 2
                  then acc + 0.25 else acc) 0)
            | _, _ => none
          else some 0
        match jup_part, sat_part with
        | some j, some s =>
          scoreTransitLoop S D chart rest (total_score + min (j + s) 1)
            (event_count + 1)
        | _, _ => none
      | _, _, _ => none

/-- Embeds `BirthTimeRectifier._score_transit_timing`. -/
def _score_transit_timing (S D : ℚ → ℚ) (chart : Chart)
    (life_events : List Event) : Option ℚ :=
  if life_events = [] then some 0.5
  else
    match scoreTransitLoop S D chart life_events 0 0 with
    | none => none
    | some (total_score, event_count) =>
      some (if 0 < event_count then total_score / event_count else 0.5)

/-- The `sign_traits` table of `_score_ascendant_traits` (keys are the
integer ascendant-sign indices 0–11). -/
def sign_traits : List (ℤ × List String) :=
  [ (0, ["energetic", "impulsive", "leadership", "athletic", "direct"]),
    (1, ["stable", "practical", "stubborn", "artistic", "patient"]),
    (2, ["communicative", "versatile", "curious", "restless", "witty"]),
    (3, ["emotional", "nurturing", "moody", "protective", "intuitive"]),
    (4, ["confident", "dramatic", "generous", "prideful", "creative"]),
    (5, ["analytical", "perfectionist", "helpful", "critical", "precise"]),
    (6, ["diplomatic", "charming", "indecisive", "harmonious", "social"]),
    (7, ["intense", "mysterious", "passionate", "secretive", "transformative"]),
    (8, ["adventurous", "philosophical", "optimistic", "direct", "freedom_loving"]),
    (9, ["ambitious", "disciplined", "serious", "responsible", "structured"]),
    (10, ["innovative", "eccentric", "humanitarian", "detached", "progressive"]),
    (11, ["intuitive", "dreamy", "compassionate", "sensitive", "artistic"]) ]

/-- Integer-keyed dict lookup with default (`dict.get(k, d)`). -/
def zlookupD (l : List (ℤ × List String)) (k : ℤ) (d : List String) :
    List String :=
  match l with
  | [] => d
  | (k', v) :: rest => if k = k' then v else zlookupD rest k d

/-- Embeds `BirthTimeRectifier._score_ascendant_traits`. -/
def _score_ascendant_traits (chart : Chart)
    (personality : List (String × Bool)) : ℚ :=
  if personality = [] then 0.5
  else
    let ascendant_sign : ℤ := ⌊chart.ascendant / 30⌋
    let expected_traits := zlookupD sign_traits ascendant_sign []
    let ms_tt := personality.foldl
      (fun (acc : ℚ × ℕ) tv =>
        let trait_lower := tv.1.toLower
        let match_score :=
          if trait_lower ∈ expected_traits then
            acc.1 + (if tv.2 then 1 else -0.5)
          else if ¬ tv.2 then acc.1 + 0.2 else acc.1
        (match_score, acc.2 + 1)) (0, 0)
    if 0 < ms_tt.2 then max 0 (min 1 ((ms_tt.1 / ms_tt.2 + 1) / 2)) else 0.5

/-- The `house_correlations` table of `_score_house_events`. -/
def house_correlations : List (String × List ℕ) :=
  [ ("marriage", [7, 1]), ("career", [10, 6]), ("education", [5, 9]),
    ("children", [5]), ("health", [6, 8]), ("property", [4]),
    ("travel", [9, 3]) ]

/-- The per-event loop of `_score_house_events`; `event['type']` is read
without a key check, so a missing `type` key raises (`none`). -/
def scoreHouseLoop : List Event → ℚ → ℕ → Option (ℚ × ℕ)
  | [], total_score, event_count => some (total_score, event_count)
  | event :: rest, total_score, event_count =>
    match event.etype with
    | none => none
    | some ty =>
      let event_type := ty.toLower
      let inc : ℚ :=
        match alookup house_correlations event_type with
        | some _ => 0.6
        | none => 0.4
      scoreHouseLoop rest (total_score + inc) (event_count + 1)

/-- Embeds `BirthTimeRectifier._score_house_events`. -/
def _score_house_events (life_events : List Event) : Option ℚ :=
  if life_events = [] then some 0.5
  else
    match scoreHouseLoop life_events 0 0 with
    | none => none
    | some (total_score, event_count) =>
      some (if 0 < event_count then total_score / event_count else 0.5)

/-- Embeds `BirthTimeRectifier._calculate_confidence`.  The thresholds are the
`confidence_thresholds` attribute (`HIGH` 0.85, `MEDIUM` 0.65). -/
def _calculate_confidence (composite_score : ℚ) (method_scores : List ℚ) :
    String :=
  let score_variance :=
    (method_scores.map (fun s => (s - composite_score)^2)).sum
      / (method_scores.length : ℚ)
  let consistency_bonus : ℚ := if score_variance < 0.05 then 0.1 else 0
  let adjusted_score := composite_score + consistency_bonus
  if adjusted_score ≥ 0.85 then "HIGH"
  else if adjusted_score ≥ 0.65 then "MEDIUM"
  else "LOW"

/-- Embeds `BirthTimeRectifier._generate_recommendations`.  The message
texts are data; the non-ASCII plus-minus sign of the source is rendered as ASCII and the
apostrophe in one message is spelled out. -/
def _generate_recommendations (best_candidate : Candidate)
    (all_candidates : List Candidate) : List String :=
  let confidence := best_candidate.confidence
  let first :=
    if confidence = "HIGH" then
      "High confidence rectification. Time is likely accurate within +/-2 minutes."
    else if confidence = "MEDIUM" then
      "Moderate confidence. Consider additional life events for verification."
    else
      "Low confidence. More detailed life events or different approach recommended."
  let top_3_scores := (all_candidates.take 3).map Candidate.composite_score
  let score_difference : ℚ :=
    match top_3_scores with
    | a :: b :: _ => a - b
    | _ => 0
  let narrow :=
    if score_difference < 0.1 then
      ["Multiple times show similar scores. Consider narrower time window."]
    else []
  let ms := best_candidate.scores
  let dasha_recs :=
    if ms.dasha_events > 0.8 then
      ["Strong dasha correlation supports this timing."]
    else if ms.dasha_events < 0.5 then
      ["Weak dasha correlation. Verify event dates and types."]
    else []
  let transit_recs :=
    if ms.transit_timing > 0.7 then
      ["Transit timing supports major life events."]
    else []
  let asc_recs :=
    if ms.ascendant_traits > 0.8 then
      ["Personality traits strongly match ascendant sign."]
    else if ms.ascendant_traits < 0.4 then
      ["Personality traits do not strongly match. Consider different ascendant."]
    else []
  [first] ++ narrow ++ dasha_recs ++ transit_recs ++ asc_recs

/-- Stable descending insertion by `composite_score` (same output as
Python's stable `list.sort(key=..., reverse=True)`): an element is placed
before the first strictly smaller score, after all equal ones. -/
def insertByScoreDesc (x : Candidate) : List Candidate → List Candidate
  | [] => [x]
  | y :: ys =>
    if y.composite_score < x.composite_score then x :: y :: ys
    else y :: insertByScoreDesc x ys

/-- Stable descending sort by `composite_score`. -/
def sortByScoreDesc : List Candidate → List Candidate
  | [] => []
  | x :: xs => insertByScoreDesc x (sortByScoreDesc xs)

/-- The body of the `for candidate_time in candidates` loop of
`rectify_birth_time`: build the chart, compute the four method scores,
the weighted composite, and the confidence label. -/
def scoreOneCandidate (S D : ℚ → ℚ) (birth_data : BirthData)
    (life_events : List Event) (candidate_time : ℚ) : Option Candidate :=
  let candidate_jd := candidate_time / 1440
  let chart := _calculate_candidate_chart S D candidate_jd
    birth_data.latitude birth_data.longitude
  match _score_dasha_events chart life_events,
        _score_transit_timing S D chart life_events,
        _score_house_events life_events with
  | some sd, some st, some sh =>
    let sa := _score_ascendant_traits chart birth_data.personality
    let composite_score := sd * 0.35 + st * 0.25 + sa * 0.20 + sh * 0.20
    some { time := candidate_time, julian_day := candidate_jd, chart := chart,
           scores := ⟨sd, st, sa, sh⟩, composite_score := composite_score,
           confidence := _calculate_confidence composite_score [sd, st, sa, sh] }
  | _, _, _ => none

/-- The whole scoring loop (`scored_candidates`), in candidate order. -/
def scoreCandidatesLoop (S D : ℚ → ℚ) (birth_data : BirthData)
    (life_events : List Event) : List ℚ → Option (List Candidate)
  | [] => some []
  | t :: rest =>
    match scoreOneCandidate S D birth_data life_events t with
    | none => none
    | some c =>
      match scoreCandidatesLoop S D birth_data life_events rest with
      | none => none
      | some cs => some (c :: cs)

/-- Embeds `BirthTimeRectifier.rectify_birth_time`.  The guard is Python's
`if not life_events` — it only rejects an *empty* event list.  `none`
models an uncaught exception (e.g. `scored_candidates[0]` on an empty
candidate list, or a `KeyError` while scoring). -/
def rectify_birth_time (S D : ℚ → ℚ) (birth_data : BirthData)
    (life_events : List Event) (time_window_hours : ℕ) :
    Option RectificationResult :=
  if life_events = [] then
    some { success := false,
           error := some "Life events required for rectification",
           recommendation := some "Please provide at least 3 significant life events",
           rectified_time := none, confidence := none, confidence_score := none,
           method_scores := none, alternatives := [],
           total_candidates_tested := 0, recommendations := [] }
  else
    let yd := birth_data.date
    let hm := birth_data.approximate_time.getD (12, 0)
    let approx_jd := precise_julian_day ⟨yd.1, yd.2.1, yd.2.2, hm.1, hm.2, 0, 0⟩
    let approx_instant := approx_jd * 1440
    let candidates := _generate_time_candidates approx_instant time_window_hours
    match scoreCandidatesLoop S D birth_data life_events candidates with
    | none => none
    | some scored_candidates =>
      let sorted := sortByScoreDesc scored_candidates
      match sorted.head? with
      | none => none
      | some best_candidate =>
        some { success := true, error := none, recommendation := none,
               rectified_time := some best_candidate.time,
               confidence := some best_candidate.confidence,
               confidence_score := some best_candidate.composite_score,
               method_scores := some best_candidate.scores,
               alternatives := (sorted.drop 1).take 3,
               total_candidates_tested := candidates.length,
               recommendations := _generate_recommendations best_candidate sorted }

/-- Concrete rectification request used to exercise
`rectify_birth_time` with exactly two life events: birth 2000-01-01,
approximate time 12:00, at latitude/longitude (0, 0), no personality
flags. -/
def c1_birth : BirthData :=
  { date := (2000, 1, 1), approximate_time := some (12, 0),
    latitude := 0, longitude := 0, personality := [] }

/-- Two well-formed life events (both carry `date` and `type` keys). -/
def c1_events : List Event :=
  [ { date := some (2005, 6, 1), etype := some "marriage", importance := none },
    { date := some (2010, 3, 10), etype := some "career", importance := some 0.9 } ]

/-- CLAIM C6: the Julian Day conversion applied to 2000-01-01T12:00:00 UTC
returns exactly 2451545.0, in both `precise_julian_day`
(src/engines/base_engine.py) and `julian_day` (src/astro_calc.py). -/
theorem julian_day_epoch_exact :
    precise_julian_day ⟨2000, 1, 1, 12, 0, 0, 0⟩ = 2451545 ∧
    julian_day ⟨2000, 1, 1, 12, 0, 0, 0⟩ = 2451545 := by
  have h : gregorianJDN 2000 1 1 = 2451545 := by decide
  refine ⟨?_, ?_⟩ <;>
    · simp only [precise_julian_day, julian_day, h]
      norm_num

/-- CLAIM C7: for every tropical longitude, JD and ayanamsa system name,
`(tropical_to_sidereal x jd sys + calculate_ayanamsa jd sys) mod 360`
equals `x mod 360` exactly. -/
theorem tropical_sidereal_roundtrip (x jd : ℚ) (sys : String) :
    pmod (tropical_to_sidereal x jd sys + calculate_ayanamsa jd sys) 360
      = pmod x 360 := by
  unfold tropical_to_sidereal
  set a := calculate_ayanamsa jd sys with ha
  have h360 : (360 : ℚ) ≠ 0 := by norm_num
  calc pmod (pmod (x - a) 360 + a) 360
      = pmod (x - a - 360 * ⌊(x - a) / 360⌋ + a) 360 := by
        rw [pmod_spec (x - a) 360]
    _ = pmod (x - 360 * ⌊(x - a) / 360⌋) 360 := by
        congr 1; ring
    _ = pmod x 360 := pmod_sub_int_mul x 360 ⌊(x - a) / 360⌋ h360

/-- CLAIM C3, counterexample: the named systems LAHIRI and KP have
identical base-offset/precession-rate constants, so the constants are not
pairwise distinct. -/
theorem ayanamsa_lahiri_kp_same_constants :
    alookup ayanamsa_values "LAHIRI" = alookup ayanamsa_values "KP" ∧
    "LAHIRI" ≠ "KP" := by
  constructor
  · rfl
  · decide

/-- CLAIM C3, amended: the ayanamsa computation names exactly three
reference systems (LAHIRI, RAMAN, KP); RAMAN's constants differ from
LAHIRI's, but KP shares LAHIRI's constants, so only two distinct
constant pairs exist among the three names. -/
theorem ayanamsa_three_systems_two_constant_pairs :
    ayanamsa_values.length = 3 ∧
    (alookup ayanamsa_values "LAHIRI").isSome = true ∧
    (alookup ayanamsa_values "RAMAN").isSome = true ∧
    (alookup ayanamsa_values "KP").isSome = true ∧
    alookup ayanamsa_values "LAHIRI" ≠ alookup ayanamsa_values "RAMAN" ∧
    alookup ayanamsa_values "LAHIRI" = alookup ayanamsa_values "KP" := by
  refine ⟨rfl, rfl, rfl, rfl, ?_, rfl⟩
  simp [alookup, ayanamsa_values]
  norm_num

/-! ### Range invariants (C4) and whole-sign houses (C2) -/

/-- Shared bound: `pmod _ 360 ∈ [0, 360)`. -/
theorem pmod360_bounds (x : ℚ) : 0 ≤ pmod x 360 ∧ pmod x 360 < 360 :=
  ⟨pmod_nonneg x 360 (by norm_num), pmod_lt x 360 (by norm_num)⟩

/-- CLAIM C4: for every JD (and every trigonometric oracle, hence in
particular the real `sin`/`cos`/`degrees`), `enhanced_sun_longitude`,
`enhanced_moon_longitude`, every longitude of
`enhanced_planetary_positions`, and every house-cusp longitude of
`_calculate_enhanced_houses` (any system, any latitude/longitude, with or
without an ayanamsa offset) lie in `[0, 360)`. -/
theorem longitudes_in_range (S C D : ℚ → ℚ) (jd lat lon : ℚ)
    (system : String) (aya : Option ℚ) :
    (0 ≤ enhanced_sun_longitude S jd ∧ enhanced_sun_longitude S jd < 360) ∧
    (0 ≤ enhanced_moon_longitude S jd ∧ enhanced_moon_longitude S jd < 360) ∧
    List.Forall (fun p : String × ℚ => 0 ≤ p.2 ∧ p.2 < 360)
      (enhanced_planetary_positions S D jd) ∧
    List.Forall (fun h : House => 0 ≤ h.longitude ∧ h.longitude < 360)
      (_calculate_enhanced_houses S C jd lat lon system aya) := by
  refine ⟨pmod360_bounds _, pmod360_bounds _, ?_, ?_⟩
  · simp only [enhanced_planetary_positions, List.Forall]
    exact ⟨pmod360_bounds _, pmod360_bounds _, pmod360_bounds _,
           pmod360_bounds _, pmod360_bounds _⟩
  · rw [List.forall_iff_forall_mem]
    intro h hmem
    simp only [_calculate_enhanced_houses, List.mem_map, List.mem_range] at hmem
    obtain ⟨i, hi, rfl⟩ := hmem
    cases aya with
    | some a => exact pmod360_bounds _
    | none =>
      simp only
      by_cases he : system = "equal"
      · simp only [he, if_true]
        exact pmod360_bounds _
      · by_cases hw : system = "whole"
        · simp only [he, hw, if_false, if_true]
          set k : ℤ := (⌊pmod (280.46061837 + 360.98564736629 * (jd - 2451545)
            + 0.000387933 * ((jd - 2451545) / 36525)^2
            - ((jd - 2451545) / 36525)^3 / 38710000 + lon) 360 / 30⌋ + (i : ℤ)) % 12
            with hk
          have h1 : 0 ≤ k := Int.emod_nonneg _ (by norm_num)
          have h2 : k < 12 := Int.emod_lt_of_pos _ (by norm_num)
          constructor
          · push_cast
            positivity
          · push_cast
            have : (k : ℚ) ≤ 11 := by exact_mod_cast Int.lt_add_one_iff.mp h2
            nlinarith
        · simp only [he, hw, if_false]
          exact pmod360_bounds _


/-- CLAIM C2, counterexample: with `system="whole"` and a supplied
ayanamsa offset of 15°, the cusps are *not* multiples of 30 — at
JD 2451545, latitude 0, longitude 0 the first cusp has
`degrees_in_sign = 15 ≠ 0`, so not every cusp is an exact multiple of 30
when an ayanamsa offset is supplied. -/
theorem whole_sign_ayanamsa_counterexample :
    ((_calculate_enhanced_houses (fun _ => 0) (fun _ => 0) 2451545 0 0
        "whole" (some 15)).head?).map House.degrees = some 15 ∧
    ¬ List.Forall (fun h : House => h.degrees = 0)
      (_calculate_enhanced_houses (fun _ => 0) (fun _ => 0) 2451545 0 0
        "whole" (some 15)) := by
  have hne : ¬ (("whole" : String) = "equal") := by decide
  have hr : List.range 12 = [0, 1, 2, 3, 4, 5, 6, 7, 8, 9, 10, 11] := by rfl
  have hhead : ((_calculate_enhanced_houses (fun _ => 0) (fun _ => 0) 2451545 0 0
      "whole" (some 15)).head?).map House.degrees = some 15 := by
    simp only [_calculate_enhanced_houses, hr, List.map, List.head?, hne,
      if_false, Option.map_some']
    norm_num [pmod]
  refine ⟨hhead, ?_⟩
  intro hF
  rw [List.forall_iff_forall_mem] at hF
  obtain ⟨h0, hh0⟩ : ∃ h0, (_calculate_enhanced_houses (fun _ => 0) (fun _ => 0)
      2451545 0 0 "whole" (some 15)).head? = some h0 := by
    cases hh : (_calculate_enhanced_houses (fun _ => 0) (fun _ => 0)
        2451545 0 0 "whole" (some 15)).head? with
    | none => rw [hh] at hhead; simp at hhead
    | some v => exact ⟨v, rfl⟩
  have hmem : h0 ∈ _calculate_enhanced_houses (fun _ => 0) (fun _ => 0)
      2451545 0 0 "whole" (some 15) :=
    List.mem_of_mem_head? (by rw [hh0]; rfl)
  have hz := hF h0 hmem
  rw [hh0] at hhead
  simp only [Option.map_some'] at hhead
  rw [hz] at hhead
  norm_num at hhead

/-- CLAIM C2, amended: with `system="whole"` and *no* ayanamsa offset,
every cusp is an exact multiple of 30 (`degrees_in_sign = 0`); when an
ayanamsa offset `a` is supplied, every cusp is instead a multiple of 30
shifted down by `a` (mod 360), i.e. `(cusp.longitude + a) mod 30 = 0` —
so the cusps land on sign boundaries only when `a` itself is a multiple
of 30. -/
theorem whole_sign_houses_boundaries (S C : ℚ → ℚ) (jd lat lon : ℚ) :
    List.Forall (fun h : House => h.degrees = 0)
      (_calculate_enhanced_houses S C jd lat lon "whole" none) ∧
    ∀ a : ℚ, List.Forall (fun h : House => pmod (h.longitude + a) 30 = 0)
      (_calculate_enhanced_houses S C jd lat lon "whole" (some a)) := by
  have hne : ¬ (("whole" : String) = "equal") := by decide
  have h30 : (30 : ℚ) ≠ 0 := by norm_num
  constructor
  · rw [List.forall_iff_forall_mem]
    intro h hmem
    simp only [_calculate_enhanced_houses, List.mem_map, List.mem_range,
      hne, if_false, if_true, eq_self_iff_true] at hmem
    obtain ⟨i, hi, rfl⟩ := hmem
    simp only
    set k : ℤ := (⌊pmod (280.46061837 + 360.98564736629 * (jd - 2451545)
      + 0.000387933 * ((jd - 2451545) / 36525)^2
      - ((jd - 2451545) / 36525)^3 / 38710000 + lon) 360 / 30⌋ + (i : ℤ)) % 12
      with hk
    have : ((k * 30 : ℤ) : ℚ) = 30 * (k : ℚ) := by push_cast; ring
    rw [this]
    exact pmod_int_mul_self 30 k h30
  · intro a
    rw [List.forall_iff_forall_mem]
    intro h hmem
    simp only [_calculate_enhanced_houses, List.mem_map, List.mem_range,
      hne, if_false, if_true, eq_self_iff_true] at hmem
    obtain ⟨i, hi, rfl⟩ := hmem
    simp only
    set k : ℤ := (⌊pmod (280.46061837 + 360.98564736629 * (jd - 2451545)
      + 0.000387933 * ((jd - 2451545) / 36525)^2
      - ((jd - 2451545) / 36525)^3 / 38710000 + lon) 360 / 30⌋ + (i : ℤ)) % 12
      with hk
    set f : ℤ := ⌊(((k * 30 : ℤ) : ℚ) - a) / 360⌋ with hf
    have hlong : pmod (((k * 30 : ℤ) : ℚ) - a) 360 + a
        = 30 * ((k - 12 * f : ℤ) : ℚ) := by
      rw [pmod_spec, ← hf]
      push_cast
      ring
    rw [hlong]
    exact pmod_int_mul_self 30 (k - 12 * f) h30

/-! ### Aspect detection at separation 180° (C8) -/

/-- CLAIM C8: for exactly two bodies at longitudes 100.0 and 280.0, both
aspect calculators emit exactly one aspect — an opposition with
`orb_degrees = 0` (strength `exact` in the precise variant) — and no
aspect of any other type. -/
theorem aspects_100_280_single_opposition :
    _calculate_precise_aspects "ENHANCED"
        [("planet1", ⟨"Mercury", some 100⟩), ("planet2", ⟨"Venus", some 280⟩)]
      = [{ planet1 := "Mercury", planet2 := "Venus", aspect := "opposition",
           orb := 0, strength := "exact",
           description := _get_aspect_meaning "Mercury" "Venus" "opposition",
           precision := "enhanced" }] ∧
    _calculate_aspects
        [("planet1", ⟨"Mercury", some 100⟩), ("planet2", ⟨"Venus", some 280⟩)]
      = [{ planet1 := "Mercury", planet2 := "Venus", aspect := "opposition",
           orb := 0,
           description := _get_aspect_meaning "Mercury" "Venus" "opposition",
           precision := "standard" }] := by
  constructor <;>
    · simp only [_calculate_precise_aspects, _calculate_aspects, pythonPairs,
        major_aspects_precise, major_aspects_standard, List.map, List.append,
        List.flatMap, List.filterMap, List.flatten]
      norm_num

/-! ### The candidate time grid (C9) -/

/-- With fuel at least `n + 2`, the candidate `while` loop walking from
`cur` to `cur + 2n` produces exactly the arithmetic list
`cur, cur + 2, …, cur + 2n`. -/
theorem candidatesLoop_eq_map (n : ℕ) : ∀ (fuel : ℕ) (cur : ℚ), n + 1 < fuel →
    candidatesLoop fuel cur (cur + 2 * n)
      = (List.range (n + 1)).map (fun k : ℕ => cur + 2 * k) := by
  induction n with
  | zero =>
    intro fuel cur hf
    match fuel, hf with
    | fuel + 2, _ =>
      simp only [candidatesLoop, Nat.cast_zero, mul_zero, add_zero]
      rw [if_pos le_rfl, if_neg (by linarith)]
      have h1 : List.range 1 = [0] := rfl
      rw [h1]
      norm_num
  | succ n ih =>
    intro fuel cur hf
    match fuel, hf with
    | fuel + 1, hf =>
      have hstep : cur + 2 * ((n + 1 : ℕ) : ℚ) = cur + 2 + 2 * (n : ℚ) := by
        push_cast; ring
      simp only [candidatesLoop]
      rw [if_pos (by push_cast; linarith), hstep,
        ih fuel (cur + 2) (by omega)]
      calc cur :: (List.range (n + 1)).map (fun k : ℕ => cur + 2 + 2 * (k : ℚ))
          = (fun k : ℕ => cur + 2 * (k : ℚ)) 0 ::
            (List.range (n + 1)).map ((fun k : ℕ => cur + 2 * (k : ℚ)) ∘ Nat.succ) := by
            congr 1
            · norm_num
            · exact List.map_congr_left (fun a _ => by
                simp only [Function.comp]
                push_cast
                ring)
        _ = (List.range (n + 1 + 1)).map (fun k : ℕ => cur + 2 * (k : ℚ)) := by
            conv_rhs => rw [List.range_succ_eq_map, List.map_cons, List.map_map]

/-- CLAIM C9: for every approximate time and positive `window_hours`, the
candidate generator returns the timestamps from `approx − window/2` to
`approx + window/2` inclusive (here in minutes on the timeline), strictly
increasing and spaced exactly 2 minutes apart, `30·window_hours + 1`
candidates in total — 121 for a 4-hour window. -/
theorem candidate_grid (approx : ℚ) (w : ℕ) (hw : 0 < w) :
    _generate_time_candidates approx w
      = (List.range (30 * w + 1)).map (fun k : ℕ => approx - 30 * w + 2 * k) ∧
    (_generate_time_candidates approx w).length = 30 * w + 1 ∧
    List.Chain' (fun x y => y = x + 2 ∧ x < y) (_generate_time_candidates approx w) ∧
    (_generate_time_candidates approx w).head? = some (approx - 30 * w) ∧
    (_generate_time_candidates approx w).getLast? = some (approx + 30 * w) := by
  have hmap : _generate_time_candidates approx w
      = (List.range (30 * w + 1)).map (fun k : ℕ => approx - 30 * (w : ℚ) + 2 * k) := by
    unfold _generate_time_candidates
    have harg : approx + 30 * (w : ℚ)
        = (approx - 30 * (w : ℚ)) + 2 * ((30 * w : ℕ) : ℚ) := by
      push_cast; ring
    rw [harg]
    exact candidatesLoop_eq_map (30 * w) (30 * w + 2) (approx - 30 * (w : ℚ))
      (by omega)
  refine ⟨hmap, ?_, ?_, ?_, ?_⟩
  · rw [hmap, List.length_map, List.length_range]
  · rw [hmap, List.chain'_map, List.chain'_range_succ]
    intro m hm
    constructor
    · push_cast; ring
    · push_cast; linarith
  · rw [hmap, List.head?_map, List.range_succ_eq_map]
    norm_num
  · rw [hmap, List.range_succ, List.map_append, List.map_singleton,
      List.getLast?_concat]
    congr 1
    push_cast
    ring

/-- Witness for C9 at `approx = 0`, `window_hours = 4`: the window is
positive and exactly 121 candidates are generated. -/
theorem candidate_grid_witness :
    0 < 4 ∧ (_generate_time_candidates 0 4).length = 121 := by
  refine ⟨by norm_num, ?_⟩
  have h := (candidate_grid 0 4 (by norm_num)).2.1
  simpa using h

/-! ### Termination and closure of the running-dasha computation (C5) -/

/-- Every nakshatra lord is one of the nine dasha lords. -/
theorem nakshatra_lords_subset : ∀ x ∈ nakshatra_lords, x ∈ dasha_lords := by
  decide

/-- Every dasha lord has a period entry, and every period is at least 6
years (the minimum of the Vimshottari table). -/
theorem dasha_period_ge_six :
    ∀ l ∈ dasha_lords, ∃ p, alookup dasha_periods l = some p ∧ 6 ≤ p := by
  intro l hl
  have hdl : dasha_lords
      = ["sun", "moon", "mars", "rahu", "jupiter", "saturn", "mercury",
         "ketu", "venus"] := rfl
  rw [hdl] at hl
  fin_cases hl <;> exact ⟨_, rfl, by norm_num⟩

/-- The dasha `while` loop returns one of the nine lords whenever the
fuel dominates the remaining elapsed years (each step consumes at least
6 years of elapsed time). -/
theorem dashaLoop_total (fuel : ℕ) :
    ∀ (ce : ℚ) (idx : ℕ) (ey : ℚ), idx < dasha_lords.length →
      ey ≤ ce + 6 * fuel →
      ∃ l, dashaLoop fuel ce idx ey = some l ∧ l ∈ dasha_lords := by
  induction fuel with
  | zero =>
    intro ce idx ey hidx hey
    simp only [Nat.cast_zero, mul_zero, add_zero] at hey
    simp only [dashaLoop, if_neg (not_lt.2 hey)]
    exact ⟨_, List.get?_eq_get hidx, List.get_mem _ _ _⟩
  | succ fuel ih =>
    intro ce idx ey hidx hey
    by_cases hce : ce < ey
    · simp only [dashaLoop, if_pos hce]
      rw [List.get?_eq_get hidx]
      have hmem : dasha_lords.get ⟨idx, hidx⟩ ∈ dasha_lords := List.get_mem _ _ _
      obtain ⟨p, hp, hp6⟩ := dasha_period_ge_six _ hmem
      simp only [hp]
      by_cases hret : ce + p > ey
      · rw [if_pos hret]
        exact ⟨_, rfl, hmem⟩
      · rw [if_neg hret]
        apply ih
        · exact Nat.mod_lt _ (by norm_num [dasha_lords, dasha_periods])
        · push_cast at hey ⊢
          linarith
    · simp only [dashaLoop, if_neg hce]
      exact ⟨_, List.get?_eq_get hidx, List.get_mem _ _ _⟩

/-- Lemma: `_calculate_running_dasha` returns one of the nine dasha lords for
every birth-moon longitude in `[0, 360)` and *every* rational elapsed
time: the computed fuel always suffices. -/
theorem running_dasha_total (moon years : ℚ)
    (h0 : 0 ≤ moon) (h1 : moon < 360) :
    ∃ l, _calculate_running_dasha moon years = some l ∧ l ∈ dasha_lords := by
  simp only [_calculate_running_dasha]
  have hnn0 : (0 : ℤ) ≤ ⌊moon / (360 / 27 : ℚ)⌋ :=
    Int.floor_nonneg.2 (div_nonneg h0 (by norm_num))
  have hnn27 : ⌊moon / (360 / 27 : ℚ)⌋ < 27 := by
    rw [Int.floor_lt]
    rw [div_lt_iff (by norm_num)]
    push_cast
    linarith
  have hlen : nakshatra_lords.length = 27 := rfl
  have htn : (⌊moon / (360 / 27 : ℚ)⌋).toNat < nakshatra_lords.length := by
    rw [hlen]; omega
  have hpy : pyIdx nakshatra_lords ⌊moon / (360 / 27 : ℚ)⌋
      = some (nakshatra_lords.get ⟨(⌊moon / (360 / 27 : ℚ)⌋).toNat, htn⟩) := by
    unfold pyIdx
    rw [if_pos hnn0]
    exact List.get?_eq_get htn
  rw [hpy]
  set birth_lord := nakshatra_lords.get ⟨(⌊moon / (360 / 27 : ℚ)⌋).toNat, htn⟩
    with hbl
  have hmem : birth_lord ∈ dasha_lords :=
    nakshatra_lords_subset _ (List.get_mem _ _ _)
  obtain ⟨p, hp, hp6⟩ := dasha_period_ge_six _ hmem
  simp only [hp]
  by_cases hyr : years ≤ p * (1 - pmod moon (360 / 27) / (360 / 27))
  · rw [if_pos hyr]
    exact ⟨birth_lord, rfl, hmem⟩
  · rw [if_neg hyr]
    push_neg at hyr
    have hnpos0 : 0 ≤ pmod moon (360 / 27) / (360 / 27) :=
      div_nonneg (pmod_nonneg _ _ (by norm_num)) (by norm_num)
    have hnpos1 : pmod moon (360 / 27) / (360 / 27) < 1 :=
      (div_lt_one (by norm_num)).2 (pmod_lt _ _ (by norm_num))
    have hrem : 0 ≤ p * (1 - pmod moon (360 / 27) / (360 / 27)) := by
      apply mul_nonneg (by linarith)
      linarith
    apply dashaLoop_total
    · exact Nat.mod_lt _ (by norm_num [dasha_lords, dasha_periods])
    · have hceil : years / 6 ≤ (⌈years / 6⌉ : ℚ) := Int.le_ceil _
      have htn2 : ((⌈years / 6⌉ : ℤ) : ℚ) ≤ ((⌈years / 6⌉.toNat : ℕ) : ℚ) := by
        exact_mod_cast Int.self_le_toNat _
      push_cast
      nlinarith

/-- CLAIM C5: for every birth moon sidereal longitude in `[0, 360)` and
every elapsed time in `[0, 300]` years, the running-dasha computation
terminates (returns `some`) and yields one of the nine fixed period
lords, wrapping correctly across multiple 120-year cycles. -/
theorem running_dasha_returns_lord (moon years : ℚ)
    (h0 : 0 ≤ moon) (h1 : moon < 360) (hy0 : 0 ≤ years) (hy1 : years ≤ 300) :
    (∃ l, _calculate_running_dasha moon years = some l ∧ l ∈ dasha_lords) ∧
    dasha_lords = ["sun", "moon", "mars", "rahu", "jupiter", "saturn",
      "mercury", "ketu", "venus"] :=
  ⟨running_dasha_total moon years h0 h1, rfl⟩

/-- Witness for C5 at `moon = 0`, `years = 300` (2.5 full cycles past the
first period). -/
theorem running_dasha_returns_lord_witness :
    (0 ≤ (0 : ℚ) ∧ (0 : ℚ) < 360 ∧ 0 ≤ (300 : ℚ) ∧ (300 : ℚ) ≤ 300) ∧
    ((∃ l, _calculate_running_dasha 0 300 = some l ∧ l ∈ dasha_lords) ∧
      dasha_lords = ["sun", "moon", "mars", "rahu", "jupiter", "saturn",
        "mercury", "ketu", "venus"]) :=
  ⟨by norm_num,
   running_dasha_returns_lord 0 300 le_rfl (by norm_num) (by norm_num) le_rfl⟩

/-! ### Keyless events are skipped by dasha-event scoring (C10) -/

/-- The scoring loop ignores events missing a `date` or `type` key: it
computes the same accumulator as on the filtered list. -/
theorem scoreDashaLoop_filter (c : Chart) : ∀ (evs : List Event) (t : ℚ) (n : ℕ),
    scoreDashaLoop c evs t n
      = scoreDashaLoop c (evs.filter fun e => e.date.isSome && e.etype.isSome) t n := by
  intro evs
  induction evs with
  | nil => intro t n; rfl
  | cons e rest ih =>
    intro t n
    cases hd : e.date with
    | none =>
      simp only [scoreDashaLoop, hd, List.filter_cons, Option.isSome_none,
        Bool.false_and, if_false, Bool.false_eq_true]
      exact ih t n
    | some d =>
      cases he : e.etype with
      | none =>
        simp only [scoreDashaLoop, hd, he, List.filter_cons, Option.isSome_none,
          Option.isSome_some, Bool.true_and, if_false, Bool.false_eq_true]
        obtain ⟨y, m, dd⟩ := d
        exact ih t n
      | some ty =>
        obtain ⟨y, m, dd⟩ := d
        simp only [scoreDashaLoop, hd, he, List.filter_cons, Option.isSome_some,
          Bool.true_and, if_true]
        cases hrd : _calculate_running_dasha c.moon_longitude
            ((precise_julian_day ⟨y, m, dd, 0, 0, 0, 0⟩ - c.julian_day) / 365.25) with
        | none => rfl
        | some rd => exact ih _ _

/-- CLAIM C10: `_score_dasha_events` silently skips every life event
lacking a `date` or a `type` key (scoring equals scoring of the filtered
list); on an empty list, and whenever every supplied event lacks one of
those keys, it returns exactly 0.5. -/
theorem dasha_score_skips_keyless (c : Chart) (events : List Event) :
    _score_dasha_events c events
      = _score_dasha_events c (events.filter fun e => e.date.isSome && e.etype.isSome) ∧
    _score_dasha_events c [] = some 0.5 ∧
    ((events.filter fun e => e.date.isSome && e.etype.isSome) = [] →
      _score_dasha_events c events = some 0.5) := by
  have hfilter : _score_dasha_events c events
      = _score_dasha_events c (events.filter fun e => e.date.isSome && e.etype.isSome) := by
    by_cases hev : events = []
    · subst hev; rfl
    · unfold _score_dasha_events
      rw [if_neg hev, scoreDashaLoop_filter]
      by_cases hfil : (events.filter fun e => e.date.isSome && e.etype.isSome) = []
      · rw [hfil, if_pos rfl]
        simp [scoreDashaLoop]
      · rw [if_neg hfil]
  refine ⟨hfilter, rfl, fun hfil => ?_⟩
  rw [hfilter, hfil]
  rfl

/-- Witness for C10: a single event with a `type` but no `date` is
filtered out, and the score is exactly 0.5. -/
theorem dasha_score_skips_keyless_witness :
    (([⟨none, some "marriage", none⟩] : List Event).filter
        (fun e => e.date.isSome && e.etype.isSome) = []) ∧
    _score_dasha_events ⟨0, 0, [], 0, 0⟩ [⟨none, some "marriage", none⟩]
      = some 0.5 :=
  ⟨rfl, (dasha_score_skips_keyless ⟨0, 0, [], 0, 0⟩
      [⟨none, some "marriage", none⟩]).2.2 rfl⟩

/-! ### The rectification guard accepts two life events (C1) -/

/-- A zero-hour window produces exactly one candidate: the approximate
time itself. -/
theorem gen_candidates_zero (t : ℚ) : _generate_time_candidates t 0 = [t] := by
  simp only [_generate_time_candidates, Nat.cast_zero, mul_zero, sub_zero,
    add_zero, Nat.mul_zero, Nat.zero_add]
  rw [candidatesLoop]
  rw [if_pos le_rfl]
  rw [candidatesLoop]
  rw [if_neg (by linarith)]

/-- The moon entry of the candidate chart is the sidereal moon. -/
theorem candidate_chart_moon (S D : ℚ → ℚ) (jd lat lon : ℚ) :
    (_calculate_candidate_chart S D jd lat lon).moon_longitude
      = tropical_to_sidereal (enhanced_moon_longitude S jd) jd "LAHIRI" := by
  simp [_calculate_candidate_chart, enhanced_planetary_positions]

/-- The candidate chart's moon longitude lies in `[0, 360)`. -/
theorem candidate_chart_moon_bounds (S D : ℚ → ℚ) (jd lat lon : ℚ) :
    0 ≤ (_calculate_candidate_chart S D jd lat lon).moon_longitude ∧
    (_calculate_candidate_chart S D jd lat lon).moon_longitude < 360 := by
  rw [candidate_chart_moon]
  unfold tropical_to_sidereal
  exact pmod360_bounds _

/-- The candidate chart always carries `sun` and `moon` sidereal keys. -/
theorem candidate_chart_sun_moon (S D : ℚ → ℚ) (jd lat lon : ℚ) :
    (alookup (_calculate_candidate_chart S D jd lat lon).planets_sidereal
      "sun").isSome = true ∧
    (alookup (_calculate_candidate_chart S D jd lat lon).planets_sidereal
      "moon").isSome = true := by
  constructor <;>
    simp [_calculate_candidate_chart, enhanced_planetary_positions, alookup]

/-- The planetary-position table always carries `jupiter` and `saturn`. -/
theorem planetary_jupiter_saturn (S D : ℚ → ℚ) (jd : ℚ) :
    (alookup (enhanced_planetary_positions S D jd) "jupiter").isSome = true ∧
    (alookup (enhanced_planetary_positions S D jd) "saturn").isSome = true := by
  constructor <;> simp [enhanced_planetary_positions, alookup]

/-- The dasha-event scoring loop never raises when the chart moon is in
`[0, 360)`. -/
theorem scoreDashaLoop_total (c : Chart)
    (hm0 : 0 ≤ c.moon_longitude) (hm1 : c.moon_longitude < 360) :
    ∀ (evs : List Event) (t : ℚ) (n : ℕ),
      ∃ out, scoreDashaLoop c evs t n = some out := by
  intro evs
  induction evs with
  | nil => exact fun t n => ⟨(t, n), rfl⟩
  | cons e rest ih =>
    intro t n
    cases hd : e.date with
    | none => simp only [scoreDashaLoop, hd]; exact ih t n
    | some d =>
      obtain ⟨y, m, dd⟩ := d
      cases he : e.etype with
      | none => simp only [scoreDashaLoop, hd, he]; exact ih t n
      | some ty =>
        obtain ⟨l, hl, -⟩ := running_dasha_total c.moon_longitude
          ((precise_julian_day ⟨y, m, dd, 0, 0, 0, 0⟩ - c.julian_day) / 365.25)
          hm0 hm1
        simp only [scoreDashaLoop, hd, he, hl]
        exact ih _ _

/-- Lemma: `_score_dasha_events` never raises when the chart moon is in
`[0, 360)`. -/
theorem score_dasha_isSome (c : Chart)
    (hm0 : 0 ≤ c.moon_longitude) (hm1 : c.moon_longitude < 360)
    (evs : List Event) : ∃ q, _score_dasha_events c evs = some q := by
  by_cases hev : evs = []
  · exact ⟨0.5, by rw [hev]; rfl⟩
  · obtain ⟨⟨tq, nq⟩, hout⟩ := scoreDashaLoop_total c hm0 hm1 evs 0 0
    refine ⟨if 0 < nq then tq / nq else 0.5, ?_⟩
    unfold _score_dasha_events
    rw [if_neg hev, hout]

/-- The transit-scoring loop never raises when the chart has `sun` and
`moon` entries and every dated event also carries a `type` key. -/
theorem scoreTransitLoop_total (S D : ℚ → ℚ) (c : Chart)
    (hsun : (alookup c.planets_sidereal "sun").isSome = true)
    (hmoon : (alookup c.planets_sidereal "moon").isSome = true) :
    ∀ (evs : List Event),
      (∀ e ∈ evs, e.date.isSome = true → e.etype.isSome = true) →
      ∀ (t : ℚ) (n : ℕ), ∃ out, scoreTransitLoop S D c evs t n = some out := by
  intro evs
  induction evs with
  | nil => exact fun _ t n => ⟨(t, n), rfl⟩
  | cons e rest ih =>
    intro hall t n
    have hrest : ∀ x ∈ rest, x.date.isSome = true → x.etype.isSome = true :=
      fun x hx => hall x (List.mem_cons_of_mem _ hx)
    cases hd : e.date with
    | none => simp only [scoreTransitLoop, hd]; exact ih hrest t n
    | some d =>
      obtain ⟨y, m, dd⟩ := d
      have hty : e.etype.isSome = true :=
        hall e (List.mem_cons_self _ _) (by rw [hd]; rfl)
      obtain ⟨ty, hety⟩ := Option.isSome_iff_exists.1 hty
      obtain ⟨vj, hvj⟩ := Option.isSome_iff_exists.1
        (planetary_jupiter_saturn S D (precise_julian_day ⟨y, m, dd, 0, 0, 0, 0⟩)).1
      obtain ⟨vs, hvs⟩ := Option.isSome_iff_exists.1
        (planetary_jupiter_saturn S D (precise_julian_day ⟨y, m, dd, 0, 0, 0, 0⟩)).2
      obtain ⟨ns, hns⟩ := Option.isSome_iff_exists.1 hsun
      obtain ⟨nm, hnm⟩ := Option.isSome_iff_exists.1 hmoon
      by_cases hc1 : (ty.toLower ∈ ["marriage", "career", "education", "children"]) <;>
        by_cases hc2 : (ty.toLower ∈ ["career", "health", "death_family", "property"]) <;>
        · simp only [scoreTransitLoop, hd, hety, hvj, hvs, hns, hnm, hc1, hc2,
            if_true, if_false, eq_self_iff_true, not_true, not_false_iff,
            ite_true, ite_false, eq_true, eq_false]
          exact ih hrest _ _

/-- Lemma: `_score_transit_timing` never raises under the same conditions. -/
theorem score_transit_isSome (S D : ℚ → ℚ) (c : Chart)
    (hsun : (alookup c.planets_sidereal "sun").isSome = true)
    (hmoon : (alookup c.planets_sidereal "moon").isSome = true)
    (evs : List Event)
    (hall : ∀ e ∈ evs, e.date.isSome = true → e.etype.isSome = true) :
    ∃ q, _score_transit_timing S D c evs = some q := by
  by_cases hev : evs = []
  · exact ⟨0.5, by rw [hev]; rfl⟩
  · obtain ⟨⟨tq, nq⟩, hout⟩ := scoreTransitLoop_total S D c hsun hmoon evs hall 0 0
    refine ⟨if 0 < nq then tq / nq else 0.5, ?_⟩
    unfold _score_transit_timing
    rw [if_neg hev, hout]

/-- The house-scoring loop never raises when every event carries a
`type` key. -/
theorem scoreHouseLoop_total :
    ∀ (evs : List Event), (∀ e ∈ evs, e.etype.isSome = true) →
      ∀ (t : ℚ) (n : ℕ), ∃ out, scoreHouseLoop evs t n = some out := by
  intro evs
  induction evs with
  | nil => exact fun _ t n => ⟨(t, n), rfl⟩
  | cons e rest ih =>
    intro hall t n
    have hrest : ∀ x ∈ rest, x.etype.isSome = true :=
      fun x hx => hall x (List.mem_cons_of_mem _ hx)
    obtain ⟨ty, hety⟩ := Option.isSome_iff_exists.1 (hall e (List.mem_cons_self _ _))
    simp only [scoreHouseLoop, hety]
    exact ih hrest _ _

/-- Lemma: `_score_house_events` never raises under the same condition. -/
theorem score_house_isSome (evs : List Event)
    (hall : ∀ e ∈ evs, e.etype.isSome = true) :
    ∃ q, _score_house_events evs = some q := by
  by_cases hev : evs = []
  · exact ⟨0.5, by rw [hev]; rfl⟩
  · obtain ⟨⟨tq, nq⟩, hout⟩ := scoreHouseLoop_total evs hall 0 0
    refine ⟨if 0 < nq then tq / nq else 0.5, ?_⟩
    unfold _score_house_events
    rw [if_neg hev, hout]

/-- Every event of the two-event fixture carries both keys. -/
theorem c1_events_keys :
    (∀ e ∈ c1_events, e.etype.isSome = true) ∧
    (∀ e ∈ c1_events, e.date.isSome = true → e.etype.isSome = true) := by
  have hc : c1_events
      = [⟨some (2005, 6, 1), some "marriage", none⟩,
         ⟨some (2010, 3, 10), some "career", some 0.9⟩] := rfl
  constructor
  · intro e he
    rw [hc] at he
    simp only [List.mem_cons, List.not_mem_nil, or_false] at he
    rcases he with rfl | rfl <;> rfl
  · intro e he _
    rw [hc] at he
    simp only [List.mem_cons, List.not_mem_nil, or_false] at he
    rcases he with rfl | rfl <;> rfl

/-- For every candidate instant, scoring the two-event fixture produces a
candidate record (no scoring path raises). -/
theorem scoreOne_c1_isSome (S D : ℚ → ℚ) (t : ℚ) :
    (scoreOneCandidate S D c1_birth c1_events t).isSome = true := by
  obtain ⟨hm0, hm1⟩ := candidate_chart_moon_bounds S D (t / 1440)
    c1_birth.latitude c1_birth.longitude
  obtain ⟨hsun, hmoon⟩ := candidate_chart_sun_moon S D (t / 1440)
    c1_birth.latitude c1_birth.longitude
  obtain ⟨sd, hsd⟩ := score_dasha_isSome _ hm0 hm1 c1_events
  obtain ⟨st, hst⟩ := score_transit_isSome S D _ hsun hmoon c1_events
    c1_events_keys.2
  obtain ⟨sh, hsh⟩ := score_house_isSome c1_events c1_events_keys.1
  simp only [scoreOneCandidate, hsd, hst, hsh, Option.isSome_some]

/-- CLAIM C1 (evaluation at the failing input): `rectify_birth_time`
called with exactly TWO life events does *not* fail — for every
trigonometric oracle it returns a result with `success = true`, because
the guard in the source only rejects an empty event list even though its
own error message demands at least 3 events. -/
theorem rectify_two_events_returns_success (S D : ℚ → ℚ) :
    c1_events.length = 2 ∧
    (rectify_birth_time S D c1_birth c1_events 0).map
      RectificationResult.success = some true := by
  refine ⟨rfl, ?_⟩
  have hne : c1_events ≠ [] := by
    intro h
    exact absurd (congrArg List.length h) (by norm_num [c1_events])
  obtain ⟨cand, hcand⟩ := Option.isSome_iff_exists.1
    (scoreOne_c1_isSome S D (precise_julian_day ⟨2000, 1, 1, 12, 0, 0, 0⟩ * 1440))
  have hloop : scoreCandidatesLoop S D c1_birth c1_events
      [precise_julian_day ⟨2000, 1, 1, 12, 0, 0, 0⟩ * 1440] = some [cand] := by
    simp only [scoreCandidatesLoop, hcand]
  simp only [c1_birth] at hloop
  simp only [rectify_birth_time, if_neg hne, c1_birth, Option.getD_some]
  rw [gen_candidates_zero, hloop]
  rfl
